import Mathlib

/-!
Verification of the bus_scraper repository's field-extraction heuristics.

The Python sources (bus_scraper/spiders/bus_spider.py, models.py,
pipelines.py) are shallowly embedded here.  Page text is modelled as
`List Char`; each Python regex used by the code is embedded as a dedicated
matcher that follows Python `re.search` semantics (leftmost position wins,
alternatives tried in order at a position, greedy quantifiers with the
backtracking the concrete pattern actually needs).  Scrapy selectors are
abstracted away: a detail-page table is the list of its rows' extracted
texts, image groups are the ordered lists the CSS queries would return.
-/

set_option maxRecDepth 8000

abbrev Text := List Char

/-- Python `str.lower` is ASCII `Char.toLower` on the texts considered here. -/
def lowerL (t : Text) : Text := t.map Char.toLower

/-- Python whitespace class for `\s` and `str.strip` / `str.split()`. -/
def pyIsSpace (c : Char) : Bool :=
  c = ' ' || c = '\t' || c = '\n' || c = '\r' || c = '\x0b' || c = '\x0c'

/-- Python regex word character, for the word boundary `\b`. -/
def isWordChar (c : Char) : Bool := c.isAlphanum || c = '_'

/-- Character class `[\d,]` used by the price and gross-weight patterns. -/
def isDigitComma (c : Char) : Bool := c.isDigit || c = ','

/-- Case-sensitive prefix test (Python literal matching). -/
def startsWithL : List Char → List Char → Bool
  | [], _ => true
  | _ :: _, [] => false
  | p :: ps, c :: cs => p = c && startsWithL ps cs

/-- Case-insensitive prefix test: the pattern is given in lower case. -/
def startsLower : List Char → List Char → Bool
  | [], _ => true
  | _ :: _, [] => false
  | p :: ps, c :: cs => p = c.toLower && startsLower ps cs

/-- Case-sensitive substring test (Python `in` on raw strings). -/
def hasSub (pat : List Char) : List Char → Bool
  | [] => startsWithL pat []
  | c :: cs => startsWithL pat (c :: cs) || hasSub pat cs

/-- Case-insensitive substring test (Python `pat in text.lower()`,
with `pat` written in lower case). -/
def hasSubLower (pat : List Char) : List Char → Bool
  | [] => startsLower pat []
  | c :: cs => startsLower pat (c :: cs) || hasSubLower pat cs

/-- Python `str.strip()`. -/
def pyStrip (t : Text) : Text :=
  ((t.dropWhile pyIsSpace).reverse.dropWhile pyIsSpace).reverse

/-- Python `str.split(sep)` for a one-character separator: keeps empty parts. -/
def pySplitChar (sep : Char) : List Char → List (List Char)
  | [] => [[]]
  | c :: cs =>
    if c = sep then [] :: pySplitChar sep cs
    else
      match pySplitChar sep cs with
      | [] => [[c]]
      | g :: gs => (c :: g) :: gs

/-- Python `text.split(sub)[0]` for a non-empty separator string: the text
before the first (case-sensitive) occurrence, the whole text if none. -/
def splitBeforeSub (needle : List Char) : List Char → List Char
  | [] => []
  | c :: cs =>
    if needle.isPrefixOf (c :: cs) then [] else c :: splitBeforeSub needle cs

/-- Helper for Python `str.split()` (split on whitespace runs, no empties). -/
def pyWordsAux (cur : List Char) : List Char → List (List Char)
  | [] => if cur = [] then [] else [cur.reverse]
  | c :: cs =>
    if pyIsSpace c then
      if cur = [] then pyWordsAux [] cs else cur.reverse :: pyWordsAux [] cs
    else pyWordsAux (c :: cur) cs

/-- Python `str.split()` with no argument. -/
def pyWords (t : Text) : List (List Char) := pyWordsAux [] t

/-- `re.search` position scan: try the single-position matcher on every
suffix, left to right, first success wins. -/
def scanFirst {α : Type} (f : List Char → Option α) : List Char → Option α
  | [] => f []
  | c :: cs =>
    match f (c :: cs) with
    | some g => some g
    | none => scanFirst f cs

/-- Boolean `re.search` position scan. -/
def scanBool (p : List Char → Bool) : List Char → Bool
  | [] => p []
  | c :: cs => p (c :: cs) || scanBool p cs

/-- Countdown search `n, n-1, ..., 1` for the greedy backtracking of a
`+` quantifier: the largest repetition count whose continuation matches. -/
def findDown (p : Nat → Bool) : Nat → Option Nat
  | 0 => none
  | n + 1 => if p (n + 1) then some (n + 1) else findDown p n

/-- Single-position matcher for the pattern `\$([\d,]+(?:\.\d+)?)` of
`extract_price`; returns group 1.  The `[\d,]+` run is greedy; the optional
`\.\d+` part needs no backtracking because `.` is not in `[\d,]`. -/
def dollarAt : List Char → Option (List Char)
  | '$' :: rest =>
    let r := rest.takeWhile isDigitComma
    if r = [] then none
    else
      match rest.dropWhile isDigitComma with
      | '.' :: rest3 =>
        let d := rest3.takeWhile Char.isDigit
        if d = [] then some r else some (r ++ '.' :: d)
      | _ => some r
  | _ => none

/-- Single-position matcher for `starting at \$([\d,]+(?:\.\d+)?)`:
the literal `starting at ` followed by the dollar pattern. -/
def startingAtPos (s : List Char) : Option (List Char) :=
  if startsWithL (("starting at ").toList) s then dollarAt (s.drop 12) else none

/-- `re.search(r"\$([\d,]+(?:\.\d+)?)", text)`, group 1. -/
def searchDollar (t : Text) : Option (List Char) := scanFirst dollarAt t

/-- `re.search(r"starting at \$([\d,]+(?:\.\d+)?)", text)`, group 1. -/
def searchStarting (t : Text) : Option (List Char) := scanFirst startingAtPos t

/-- bus_spider.extract_price.  `None`/empty input is falsy and yields None;
otherwise the first pattern is searched, then the `starting at` fallback. -/
def extract_price : Option Text → Option Text
  | none => none
  | some t =>
    if t = [] then none
    else
      match searchDollar t with
      | some g => some g
      | none =>
        match searchStarting t with
        | some g => some g
        | none => none

/-- One-pattern variant of `extract_price` stated by claim C10: search only
`\$([\d,]+(?:\.\d+)?)` and never consult the `starting at` fallback. -/
def extract_price_single : Option Text → Option Text
  | none => none
  | some t => if t = [] then none else searchDollar t

/-- models.Bus.validate_price: drop everything from the first `.` on,
delete non-digits (`re.sub(r"\D", "", v)`), null if nothing remains. -/
def validate_price : Option Text → Option Text
  | none => none
  | some v =>
    let v1 := splitBeforeSub (['.']) v
    let digitsOnly := v1.filter Char.isDigit
    if digitsOnly = [] then none else some digitsOnly

/-- Follows the spec's words for `normalizePrice` (claim C4): the digit
characters of the portion before the first `.`, null when no digits remain. -/
def price_digits_spec (v : Text) : Option Text :=
  let d := (v.takeWhile (fun c => c != '.')).filter Char.isDigit
  if d = [] then none else some d

/-- BusSpider.PASSANGER_KEY (the source site's own misspelling). -/
def passKeyL : List Char := ("psssanger").toList

/-- BusSpider.MILES_KEY. -/
def milesKeyL : List Char := ("miles").toList

/-- BusSpider.WHEELCHAIR_KEY. -/
def wchKeyL : List Char := ("wheelchair").toList

/-- BusSpider.LUGGAGE_KEY. -/
def lugKeyL : List Char := ("luggage").toList

/-- Single-position matcher for `Gross weight\s*([\d,]+)#?` (IGNORECASE),
group 1.  `\s*` is greedy and `[\d,]` is disjoint from `\s`, so no
backtracking; `#?` does not affect the group. -/
def grossAt (s : List Char) : Option (List Char) :=
  if startsLower (("gross weight").toList) s then
    let rest := (s.drop 12).dropWhile pyIsSpace
    let g := rest.takeWhile isDigitComma
    if g = [] then none else some g
  else none

/-- `re.search(r"Gross weight\s*([\d,]+)#?", text, re.IGNORECASE)`, group 1. -/
def searchGross (t : Text) : Option (List Char) := scanFirst grossAt t

/-- Single-position matcher for `\b(19|20)\d{2}\s\b`: a word boundary before
the year (previous character absent or not a word character), `19` or `20`,
two digits, one whitespace character, and a word boundary after it (the
whitespace is a non-word character, so the next character must exist and be
a word character).  Returns the five matched characters, i.e. group 0. -/
def yearAt (prev : Option Char) : List Char → Option (List Char)
  | a :: b :: c :: d :: w :: n :: _ =>
    if (match prev with
        | none => true
        | some p => !isWordChar p)
       && ((a = '1' && b = '9') || (a = '2' && b = '0'))
       && c.isDigit && d.isDigit && pyIsSpace w && isWordChar n
    then some [a, b, c, d, w] else none
  | _ => none

/-- Position scan for `yearAt`, threading the previous character for the
word-boundary test. -/
def findYearAux (prev : Option Char) : List Char → Option (List Char)
  | [] => none
  | c :: cs =>
    match yearAt prev (c :: cs) with
    | some m => some m
    | none => findYearAux (some c) cs

/-- bus_spider.find_year_with_space: `re.search(r"\b(19|20)\d{2}\s\b", text)`,
group 0 on a match, None otherwise. -/
def find_year_with_space (t : Text) : Option (List Char) := findYearAux none t

/-- Row test of extract_air_conditioning:
`re.search(r"(?:A/C|AC|Air conditioning|BTU)", text, re.IGNORECASE)` —
a case-insensitive substring match on any of the four alternatives. -/
def acAlt (t : Text) : Bool :=
  hasSubLower (("a/c").toList) t || hasSubLower (("ac").toList) t ||
  hasSubLower (("air conditioning").toList) t || hasSubLower (("btu").toList) t

/-- Single-position matcher (as a Bool) for
`(?:front and rear|dual)\s*dual compressor` (IGNORECASE).  The two
alternatives start with distinct letters, so at most one applies at a
position; `\s*` is greedy and `d` is not whitespace, so no backtracking. -/
def dual1At (s : List Char) : Bool :=
  if startsLower (("front and rear").toList) s then
    startsLower (("dual compressor").toList) ((s.drop 14).dropWhile pyIsSpace)
  else if startsLower (("dual").toList) s then
    startsLower (("dual compressor").toList) ((s.drop 4).dropWhile pyIsSpace)
  else false

/-- Single-position matcher for `dual compressor\s*(?:front and rear)`
(IGNORECASE). -/
def dual2At (s : List Char) : Bool :=
  startsLower (("dual compressor").toList) s &&
  startsLower (("front and rear").toList) ((s.drop 15).dropWhile pyIsSpace)

/-- Category decision of extract_air_conditioning on the text of the first
matching row.  Both arms of the source's `front and rear` branch return
BOTH (the inner `dual compressor` test does not change the result). -/
def acCategory (t : Text) : String :=
  if hasSubLower (("front and rear").toList) t then ("BOTH")
  else if scanBool dual1At t then ("BOTH")
  else if scanBool dual2At t then ("BOTH")
  else if hasSubLower (("rear").toList) t then ("REAR")
  else if hasSubLower (("dash").toList) t then ("DASH")
  else ("OTHER")

/-- bus_spider.extract_air_conditioning over the rows' extracted texts: the
loop keeps the first row matching `acAlt` and breaks; with no match the
function returns None, otherwise the category checks run on that row's text
(the loop variable `text` equals the saved row exactly when a break
occurred). -/
def extract_air_conditioning : List Text → Option String
  | [] => none
  | t :: ts => if acAlt t then some (acCategory t) else extract_air_conditioning ts

/-- One emitted BusesImageItem (items.py): name, absolute url, optional
description, and the signed image_index. -/
structure ImageItem where
  name : Text
  url : Text
  descr : Option Text
  image_index : Int

deriving instance DecidableEq for ImageItem

/-- One `img` element as the selectors return it: `@alt`, `@src` (already
resolved against the page base, response.urljoin abstracted), `@title`. -/
structure ImgSrc where
  alt : Option Text
  src : Text
  titleAttr : Option Text

deriving instance DecidableEq for ImgSrc

/-- The scraped BusItem as parse / parse_bus_details fill it in; every field
is independently optional, mirroring the dict-like scrapy item.  Assigning
Python None and leaving a key absent are both modelled as `none`. -/
structure Item where
  title : Option Text := none
  source : Option Text := none
  source_url : Option Text := none
  sold : Nat := 0
  year : Option Text := none
  make : Option Text := none
  model : Option Text := none
  passengers : Option Text := none
  mileage : Option Text := none
  engine : Option Text := none
  transmission : Option Text := none
  gvwr : Option Text := none
  wheelchair : Option Text := none
  luggage : Option Nat := none
  price : Option Text := none
  description : Option Text := none
  airconditioning : Option String := none
  images : List ImageItem := []
  features : Option Text := none

deriving instance DecidableEq for Item

def emptyItem : Item := {}

/-- Python truthiness of an optional string: None and the empty string are
falsy (`item.get(key, None)` guards in the spider). -/
def truthyT : Option Text → Bool
  | none => false
  | some s => s != []

/-- Name fallback of extract_images: a missing or empty `@alt` is falsy and
is replaced by the `"type_index"` placeholder. -/
def imageName (ty : String) (i : Nat) (alt : Option Text) : Text :=
  match alt with
  | some a => if a = [] then (ty ++ "_" ++ toString i).toList else a
  | none => (ty ++ "_" ++ toString i).toList

/-- Enumerated body of bus_spider.extract_images: `i` is the running
enumerate index within the group. -/
def extractImagesAux (ty : String) : Nat → List ImgSrc → List ImageItem
  | _, [] => []
  | i, img :: rest =>
    { name := imageName ty i img.alt, url := img.src, descr := img.titleAttr,
      image_index :=
        if ty = ("thumbnails") then -1 - (i : Int)
        else if ty = ("main_images") then 1 + (i : Int)
        else (i : Int) }
      :: extractImagesAux ty (i + 1) rest

/-- bus_spider.extract_images over the ordered list of images the selector
matched for one group. -/
def extract_images (imgs : List ImgSrc) (ty : String) : List ImageItem :=
  extractImagesAux ty 0 imgs

/-- bus_spider.is_bus_sold over the concatenated `::text` nodes of one
listing table: 1 when the literal (case-sensitive) substring `Sold` occurs,
0 otherwise. -/
def is_bus_sold (texts : List Text) : Nat :=
  if hasSub (("Sold").toList) texts.flatten then 1 else 0

/-- bus_spider.find_year_make_model.  On a `\b(19|20)\d{2}\s\b` match the
text is split on commas, each part stripped; with at least two parts the
first part's first whitespace token becomes year, its remaining tokens the
make, and the second part the model, returning True.  A first part without
tokens raises IndexError, which the source catches and turns into False;
no field is written on any False path. -/
def find_year_make_model (t : Text) (it : Item) : Item × Bool :=
  match find_year_with_space t with
  | none => (it, false)
  | some _ =>
    let parts := (pySplitChar ',' t).map pyStrip
    if 2 ≤ parts.length then
      match pyWords (parts.headD []) with
      | [] => (it, false)
      | y :: restWords =>
        ({it with year := some y,
                  make := some (List.intercalate ([' ']) restWords),
                  model := some (pyStrip (parts.getD 1 []))}, true)
    else (it, false)

/-- Continuation of `\s*diesel` after the greedy `[^,]+` of the engine
pattern's first two alternatives. -/
def dieselAfter (s : List Char) : Bool :=
  startsLower (("diesel").toList) (s.dropWhile pyIsSpace)

/-- Continuation of `\s*gas` for the `Ecoboost` alternative. -/
def gasAfter (s : List Char) : Bool :=
  startsLower (("gas").toList) (s.dropWhile pyIsSpace)

/-- Single-position matcher for the first alternative
`(DT\d{3} [^,]+\s*diesel)` (IGNORECASE) of the engine pattern; returns
group 1 (the whole alternative).  The greedy `[^,]+` backtracks to the
largest k whose remainder starts with `\s*diesel`. -/
def e1DtAt (s : List Char) : Option (List Char) :=
  match s with
  | a :: b :: d1 :: d2 :: d3 :: sp :: rest =>
    if a.toLower = 'd' && b.toLower = 't' && d1.isDigit && d2.isDigit &&
       d3.isDigit && sp = ' ' then
      let maxN := (rest.takeWhile (fun c => c != ',')).length
      match findDown (fun k => dieselAfter (rest.drop k)) maxN with
      | some k =>
        let ws := (rest.drop k).takeWhile pyIsSpace
        let tl := (rest.drop k).dropWhile pyIsSpace
        some ([a, b, d1, d2, d3, sp] ++ rest.take k ++ ws ++ tl.take 6)
      | none => none
    else none
  | _ => none

/-- Single-position test for the second alternative
`(Duramax [^,]+\s*diesel)` (IGNORECASE); only whether it matches is needed,
because a match makes `group(1)` None in the source. -/
def e1DuramaxAt (s : List Char) : Bool :=
  if startsLower (("duramax ").toList) s then
    let rest := s.drop 8
    (findDown (fun k => dieselAfter (rest.drop k))
      ((rest.takeWhile (fun c => c != ',')).length)).isSome
  else false

/-- Single-position test for the third alternative
`(Ecoboost [^,]+\s*gas)` (IGNORECASE). -/
def e1EcoboostAt (s : List Char) : Bool :=
  if startsLower (("ecoboost ").toList) s then
    let rest := s.drop 9
    (findDown (fun k => gasAfter (rest.drop k))
      ((rest.takeWhile (fun c => c != ',')).length)).isSome
  else false

/-- Single-position matcher for the full engine pattern
`(DT\d{3} [^,]+\s*diesel)|(Duramax [^,]+\s*diesel)|(Ecoboost [^,]+\s*gas)`.
`some (some g)` — the first alternative matched, `group(1) = g`;
`some none` — another alternative matched, so `group(1)` is None and
`engine_match.group(1).strip()` raises AttributeError in the source;
`none` — no match at this position. -/
def e1At (s : List Char) : Option (Option (List Char)) :=
  match e1DtAt s with
  | some g => some (some g)
  | none =>
    if e1DuramaxAt s then some none
    else if e1EcoboostAt s then some none
    else none

/-- Characters of `[\d.]` in the fallback engine pattern. -/
def isDigitDot (c : Char) : Bool := c.isDigit || c = '.'

/-- Characters of `[a-zA-Z\d\s]` in the fallback engine pattern. -/
def isClass2 (c : Char) : Bool := c.isAlpha || c.isDigit || pyIsSpace c

/-- Length of one `(?:diesel|gas|engine|V\d+)` unit at a position, trying
the alternatives in the pattern's order. -/
def unitLen (s : List Char) : Option Nat :=
  if startsLower (("diesel").toList) s then some 6
  else if startsLower (("gas").toList) s then some 3
  else if startsLower (("engine").toList) s then some 6
  else
    match s with
    | v :: rest =>
      if v.toLower = 'v' then
        (let d := rest.takeWhile Char.isDigit
         if d = [] then none else some (1 + d.length))
      else none
    | [] => none

/-- Total length consumed by the greedy `(?: ... )+` repetition: units are
matched back to back until none applies (fuel bounds the recursion; every
unit consumes at least one character). -/
def unitsLen : Nat → List Char → Nat
  | 0, _ => 0
  | fuel + 1, s =>
    match unitLen s with
    | some l => l + unitsLen fuel (s.drop l)
    | none => 0

/-- For a fixed end of the `[\d.]+` chunk, the greedy length of the
`[a-zA-Z\d\s]+` chunk: the largest `c` whose continuation starts a unit. -/
def e2AfterA (s2 : List Char) : Option Nat :=
  findDown (fun c => (unitLen (s2.drop c)).isSome)
    ((s2.takeWhile isClass2).length)

/-- Single-position matcher for the fallback engine pattern
`([\d.]+[a-zA-Z\d\s]+(?:diesel|gas|engine|V\d+)+)` (IGNORECASE), group 1.
Both `+` classes backtrack from their maximal runs (outer first), matching
Python's order; the trailing unit repetition is greedy with an empty
continuation, so it never backtracks. -/
def e2At (s : List Char) : Option (List Char) :=
  let maxA := (s.takeWhile isDigitDot).length
  match findDown (fun m => (e2AfterA (s.drop m)).isSome) maxA with
  | none => none
  | some m =>
    match e2AfterA (s.drop m) with
    | none => none
    | some c =>
      let tl := s.drop (m + c)
      some (s.take (m + c + unitsLen tl.length tl))

/-- Single-position matcher for the `10\s*speed` alternative of the
prioritized transmission pattern; returns the matched length. -/
def r1Alt2At (s : List Char) : Option Nat :=
  match s with
  | a :: b :: rest =>
    if a = '1' && b = '0' then
      let w := rest.takeWhile pyIsSpace
      if startsLower (("speed").toList) (rest.drop w.length) then
        some (2 + w.length + 5)
      else none
    else none
  | _ => none

/-- Single-position matcher for the third alternative
`(?:\d+\s*(?:spd|speed))\s*(?:ovrdrv|overdrive)?\s*(?:auto|automatic)?` of
the prioritized transmission pattern; returns the matched length.  Inner
alternations are tried in the pattern's order (`auto` before `automatic`,
so only `auto` is ever taken); each `\s*` is greedy and the following
literals start with non-space characters, so no backtracking; trailing
whitespace consumed before a failed optional stays in the match. -/
def r1Alt3At (s : List Char) : Option Nat :=
  let d := s.takeWhile Char.isDigit
  if d = [] then none
  else
    let s1 := s.drop d.length
    let w1 := s1.takeWhile pyIsSpace
    let s2 := s1.drop w1.length
    let spL := if startsLower (("spd").toList) s2 then some 3
               else if startsLower (("speed").toList) s2 then some 5
               else none
    match spL with
    | none => none
    | some l =>
      let s3 := s2.drop l
      let w2 := s3.takeWhile pyIsSpace
      let s4 := s3.drop w2.length
      let ovL := if startsLower (("ovrdrv").toList) s4 then 6
                 else if startsLower (("overdrive").toList) s4 then 9
                 else 0
      let s5 := s4.drop ovL
      let w3 := s5.takeWhile pyIsSpace
      let s6 := s5.drop w3.length
      let auL := if startsLower (("auto").toList) s6 then 4
                 else if startsLower (("automatic").toList) s6 then 9
                 else 0
      some (d.length + w1.length + l + w2.length + ovL + w3.length + auL)

/-- Single-position matcher for the prioritized transmission pattern
`(Allison|10\s*speed|(?:\d+\s*(?:spd|speed))\s*(?:ovrdrv|overdrive)?\s*(?:auto|automatic)?)`
(IGNORECASE), group 1 as the original-case slice. -/
def r1At (s : List Char) : Option (List Char) :=
  if startsLower (("allison").toList) s then some (s.take 7)
  else
    match r1Alt2At s with
    | some l => some (s.take l)
    | none =>
      match r1Alt3At s with
      | some l => some (s.take l)
      | none => none

/-- Single-position matcher for the fallback transmission pattern
`(\d+\s*spd|speed|automatic|trans|ovrdrv|overdrive)` (IGNORECASE). -/
def r2At (s : List Char) : Option (List Char) :=
  let d := s.takeWhile Char.isDigit
  if d != [] &&
     startsLower (("spd").toList) ((s.drop d.length).dropWhile pyIsSpace) then
    some (s.take (d.length + ((s.drop d.length).takeWhile pyIsSpace).length + 3))
  else if startsLower (("speed").toList) s then some (s.take 5)
  else if startsLower (("automatic").toList) s then some (s.take 9)
  else if startsLower (("trans").toList) s then some (s.take 5)
  else if startsLower (("ovrdrv").toList) s then some (s.take 6)
  else if startsLower (("overdrive").toList) s then some (s.take 9)
  else none

/-- bus_spider.extract_transmission: prioritized pattern first, fallback
second, `group(1).strip()` of the first match. -/
def extract_transmission (t : Text) : Option Text :=
  if t = [] then none
  else
    match scanFirst r1At t with
    | some g => some (pyStrip g)
    | none => (scanFirst r2At t).map pyStrip

/-- Shared tail of bus_spider.extract_engine_transmission once the engine
part is known: the transmission is extracted independently, and each of
`engine`/`transmission` is written only when the item's current value is
falsy.  The Bool is `any((engine, transmission))`. -/
def engineTransCont (t : Text) (it : Item) (e : Option Text) : Item × Bool :=
  let tr := extract_transmission t
  ({it with engine := if truthyT it.engine then it.engine else e,
            transmission := if truthyT it.transmission then it.transmission else tr},
   truthyT e || truthyT tr)

/-- bus_spider.extract_engine_transmission.  `none` models the uncaught
AttributeError raised when the prioritized engine pattern matches through
its `Duramax`/`Ecoboost` alternative, where `group(1)` is None. -/
def extract_engine_transmission (t : Text) (it : Item) : Option (Item × Bool) :=
  match scanFirst e1At t with
  | some none => none
  | some (some g) => some (engineTransCont t it (some (pyStrip g)))
  | none =>
    match scanFirst e2At t with
    | some g => some (engineTransCont t it (some (pyStrip g)))
    | none => some (engineTransCont t it none)

/-- bus_spider.extract_gross_weight: on a match, group 1 with commas
removed is stored in `gvwr` and True is returned; otherwise False and the
item is untouched. -/
def extract_gross_weight (t : Text) (it : Item) : Item × Bool :=
  match searchGross t with
  | some g => ({it with gvwr := some (g.filter (fun c => c != ','))}, true)
  | none => (it, false)

/-- One classifier-chain step of BusSpider.parse_bus_details on one row
text, threading (item, other_details).  Empty text is falsy and skipped.
The elif chain runs in source order; `none` propagates the AttributeError
of the engine extraction.  The gross-weight, wheelchair, luggage and
fallback branches all see the item as already mutated by
extract_engine_transmission. -/
def processRow (st : Item × List Text) (t : Text) : Option (Item × List Text) :=
  if t = [] then some st
  else
    let r := find_year_make_model t st.1
    if r.2 then some (r.1, st.2)
    else if hasSubLower passKeyL t then some ({st.1 with passengers := some t}, st.2)
    else if hasSubLower milesKeyL t then
      (if truthyT st.1.mileage then some st
       else some ({st.1 with mileage := some (splitBeforeSub milesKeyL t)}, st.2))
    else
      match extract_engine_transmission t st.1 with
      | none => none
      | some (it2, b) =>
        if b then some (it2, st.2)
        else
          let gw := extract_gross_weight t it2
          if gw.2 then some (gw.1, st.2)
          else if hasSubLower wchKeyL t then some ({it2 with wheelchair := some t}, st.2)
          else if hasSubLower lugKeyL t then some ({it2 with luggage := some 1}, st.2)
          else some (it2, st.2 ++ [t])

/-- The row loop of parse_bus_details over all rows of the details table. -/
def processRows (st : Item × List Text) : List Text → Option (Item × List Text)
  | [] => some st
  | t :: ts =>
    match processRow st t with
    | none => none
    | some st2 => processRows st2 ts

/-- A fetched detail page as the extraction core consumes it: the response
status, the two image groups in page order, the class-less paragraph texts,
the `h3` heading text, and the first post-details table's row texts. -/
structure DetailResponse where
  status : Nat
  mainImgs : List ImgSrc
  thumbImgs : List ImgSrc
  paragraphs : List Text
  priceText : Option Text
  rows : List Text

deriving instance DecidableEq for DetailResponse

/-- BusSpider.parse_bus_details.  The first component is the yielded item
(None when the row loop raises, in which case nothing is yielded); the
second records whether the status>400 error log ran (it sits between the
loop and the yield, so a raise skips it too). -/
def parse_bus_details (resp : DetailResponse) (it0 : Item) : Option Item × Bool :=
  let it1 := {it0 with
    images := extract_images resp.mainImgs ("main_images") ++
              extract_images resp.thumbImgs ("thumbnails")}
  let it2 := {it1 with
    description := some (((resp.paragraphs.map pyStrip)).flatten)}
  let it3 := {it2 with price := extract_price resp.priceText}
  let it4 := {it3 with airconditioning := extract_air_conditioning resp.rows}
  match processRows (it4, []) resp.rows with
  | none => (none, false)
  | some (it5, ods) =>
    let feats := if ods = [] then none
                 else some (List.intercalate ((", ").toList) ods)
    (some {it5 with features := feats}, decide (400 < resp.status))

/-- Digit-string value for Python `int`. -/
def digitsVal (ds : List Char) : Option Nat :=
  if ds = [] || !ds.all Char.isDigit then none
  else some (ds.foldl (fun acc c => acc * 10 + (c.toNat - 48)) 0)

/-- Python `int(v)` on the strings occurring here: surrounding whitespace
stripped, optional sign, then decimal digits; anything else raises
ValueError (modelled as `none`). -/
def pyInt (t : Text) : Option Int :=
  match pyStrip t with
  | '-' :: ds => (digitsVal ds).map (fun n => -(n : Int))
  | '+' :: ds => (digitsVal ds).map (fun n => (n : Int))
  | ds => (digitsVal ds).map (fun n => (n : Int))

/-- models.Bus.validate_year: parse as int, require 1900 <= year <= 2100,
re-stringify; both the out-of-range ValueError raised inside the try and a
parse failure end up re-raised as ValueError (`none`). -/
def validate_year (v : Text) : Option Text :=
  match pyInt v with
  | none => none
  | some y => if 1900 ≤ y && y ≤ 2100 then some (toString y).toList else none

/-- models.Bus.validate_make: `v.split(" ")[0]`.  Python split with an
explicit separator never yields an empty list, so this never raises. -/
def validate_make (v : Text) : Text := splitBeforeSub ([' ']) v

/-- models.Bus.validate_wheelchair: strip, then hard-truncate to 60
characters. -/
def validate_wheelchair (v : Text) : Text :=
  let s := pyStrip v
  if 60 < s.length then s.take 60 else s

/-- Raw field values handed to the pydantic Bus model by the pipeline
(restricted to the validated fields plus representative others). -/
structure RawBus where
  title : Option Text := none
  year : Option Text := none
  make : Option Text := none
  model : Option Text := none
  mileage : Option Text := none
  passengers : Option Text := none
  wheelchair : Option Text := none
  price : Option Text := none
  gvwr : Option Text := none
  sold : Bool := false

deriving instance DecidableEq for RawBus

/-- The validated pydantic Bus model. -/
structure Bus where
  title : Option Text := none
  year : Option Text := none
  make : Option Text := none
  model : Option Text := none
  mileage : Option Text := none
  passengers : Option Text := none
  wheelchair : Option Text := none
  price : Option Text := none
  gvwr : Option Text := none
  sold : Bool := false

deriving instance DecidableEq for Bus

/-- Construction of `Bus(**item)` with the four field validators of
models.py.  price/make/wheelchair validators are total (validate_price may
null its own field); validate_year raising makes the whole model
construction fail with a pydantic ValidationError, so no Bus instance
exists at all. -/
def busValidate (r : RawBus) : Option Bus :=
  let price2 := validate_price r.price
  let make2 := r.make.map validate_make
  let wch2 := r.wheelchair.map validate_wheelchair
  match r.year with
  | none =>
    some { title := r.title, year := none, make := make2, model := r.model,
           mileage := r.mileage, passengers := r.passengers, wheelchair := wch2,
           price := price2, gvwr := r.gvwr, sold := r.sold }
  | some y =>
    match validate_year y with
    | none => none
    | some y2 =>
      some { title := r.title, year := some y2, make := make2, model := r.model,
             mileage := r.mileage, passengers := r.passengers, wheelchair := wch2,
             price := price2, gvwr := r.gvwr, sold := r.sold }

/-- pipelines.MySQLPipeline.process_item up to the persistence boundary:
`Bus(**ItemAdapter(item).asdict())` runs before the try block, so a
ValidationError propagates out and the record is never merged/committed;
a validated Bus is handed to the upsert (abstracted away).  `some` is the
persisted record, `none` means the record was aborted. -/
def mysqlProcessItem (r : RawBus) : Option Bus := busValidate r

/-- The image_index rule of extract_images as a function of the group tag
and the enumerate index. -/
def groupIdx (ty : String) (i : Nat) : Int :=
  if ty = ("thumbnails") then -1 - (i : Int)
  else if ty = ("main_images") then 1 + (i : Int)
  else (i : Int)

/-- The listing-table texts of the section-8 scenario (claim C1): the title
row and a sold flag containing the literal `Sold`. -/
def demoListingTexts : List Text :=
  [("1998 Blue Bird, TC2000, 77 pass").toList, ("Sold").toList]

/-- The detail-table row texts of the section-8 scenario (claim C1). -/
def demoRows : List Text :=
  [("1998 Blue Bird, TC2000").toList,
   ("77 psssanger").toList,
   ("45,000 miles").toList,
   ("Allison automatic").toList,
   ("Gross weight 10,000#").toList,
   ("wheelchair lift available").toList,
   ("rear A/C").toList]

/-- The section-8 detail page: only the table rows matter for the claim. -/
def demoResp : DetailResponse :=
  { status := 200, mainImgs := [], thumbImgs := [], paragraphs := [],
    priceText := none, rows := demoRows }

/-- The partial item carried over from the listing stage of the scenario. -/
def demoItem0 : Item := {emptyItem with sold := is_bus_sold demoListingTexts}

/-- The record the spider yields for the section-8 scenario. -/
def demoRecord : Option Item := (parse_bus_details demoResp demoItem0).1

/-- Claim C2's offending row: a year pattern and `miles` but only one
comma segment. -/
def c2Row : Text := ("1998 Ford 45000 miles").toList

/-- Witness row for the amended claim C2: year pattern, `miles`, and two
comma segments. -/
def c2wRow : Text := ("1998 Ford, 45,000 miles").toList

/-- Claim C3's raw record: a year below 1900 with other fields present. -/
def c3Raw : RawBus :=
  { title := some (("1998 Blue Bird, TC2000, 77 pass").toList),
    year := some (("1875").toList),
    make := some (("Blue Bird").toList),
    price := some (("$999").toList) }

/-- Claim C5's offending row: `miles` appears only with a capital M, so the
case-insensitive test fires but the case-sensitive split finds nothing. -/
def c5Row : Text := ("45,000 Miles").toList

/-- Witness rows for the amended claim C5. -/
def c5wRow : Text := ("45,000 miles").toList

def c5wPost : Text := ("60,000 miles").toList

def c5wRes : Item × List Text :=
  ({emptyItem with mileage := some (("45,000 ").toList)}, [])

/-- Claim C6's first offending row: the text before `miles` is empty, so
the assigned mileage is the falsy empty string. -/
def c6r1 : Text := ("miles: unknown").toList

def c6r2 : Text := ("45,000 miles").toList

/-- Witness item for the amended claim C6: mileage already truthy. -/
def c6wSt : Item := {emptyItem with mileage := some (("9").toList)}

def c6wRes : Item × List Text := (c6wSt, [])

/-- Three anonymous main images and two thumbnails for claim C7's example. -/
def demoMainImgs : List ImgSrc :=
  [⟨none, ("u1").toList, none⟩, ⟨none, ("u2").toList, none⟩,
   ⟨none, ("u3").toList, none⟩]

def demoThumbImgs : List ImgSrc :=
  [⟨none, ("v1").toList, none⟩, ⟨none, ("v2").toList, none⟩]

/-- Rows for claim C8's example: a REAR-indicating matching row before a
DASH-indicating one, and a row matching nothing. -/
def acRearRow : Text := ("rear A/C").toList

def acDashRow : Text := ("dash AC unit").toList

def acPlainRow : Text := ("77 psssanger").toList

lemma splitBeforeSub_dot (v : Text) :
    splitBeforeSub (['.']) v = v.takeWhile (fun c => c != '.') := by
  induction v with
  | nil => rfl
  | cons c cs ih =>
    by_cases h : c = '.'
    · subst h
      simp [splitBeforeSub, List.isPrefixOf, List.takeWhile]
    · have h2 : ¬('.' = c) := fun hh => h hh.symm
      have h3 : (c != '.') = true := by simp [bne_iff_ne, h]
      simp [splitBeforeSub, List.isPrefixOf, List.takeWhile, h, h2, h3, ih]

lemma scanFirst_none_drop {α : Type} (f : List Char → Option α) :
    ∀ (t : List Char), scanFirst f t = none → ∀ i, f (t.drop i) = none := by
  intro t
  induction t with
  | nil =>
    intro h i
    simpa [List.drop] using h
  | cons c cs ih =>
    intro h i
    have h1 : f (c :: cs) = none := by
      by_contra hne
      cases hf : f (c :: cs) with
      | none => exact hne hf
      | some g => simp [scanFirst, hf] at h
    have h2 : scanFirst f cs = none := by
      simpa [scanFirst, h1] using h
    cases i with
    | zero => simpa using h1
    | succ j => simpa using ih h2 j

lemma searchStarting_none_of_searchDollar_none (t : Text)
    (h : searchDollar t = none) : searchStarting t = none := by
  have hall : ∀ i, dollarAt (t.drop i) = none := scanFirst_none_drop dollarAt t h
  unfold searchStarting
  induction t with
  | nil =>
    simp [scanFirst, startingAtPos, startsWithL]
  | cons c cs ih =>
    have h2 : searchDollar cs = none := by
      unfold searchDollar at h ⊢
      cases hf : dollarAt (c :: cs) with
      | none => simpa [scanFirst, hf] using h
      | some g => simp [scanFirst, hf] at h
    have hallcs : ∀ i, dollarAt (cs.drop i) = none :=
      scanFirst_none_drop dollarAt cs h2
    have hpos : startingAtPos (c :: cs) = none := by
      unfold startingAtPos
      split
      · simpa using hall 12
      · rfl
    simp only [scanFirst, hpos]
    exact ih h2 hallcs

/-- C10.  extract_price is equivalent to searching only its first pattern
`\$([\d,]+(?:\.\d+)?)`: whenever the first pattern finds nothing, the
`starting at \$...` pattern (whose match contains a `\$[\d,]` occurrence)
finds nothing either, so the fallback branch never produces a value and the
two-branch implementation agrees with the one-pattern implementation on
every input string. -/
theorem c10_price_single_pattern :
    ∀ t : Option Text, extract_price t = extract_price_single t := by
  intro t
  cases t with
  | none => rfl
  | some s =>
    unfold extract_price extract_price_single
    by_cases hs : s = []
    · simp [hs]
    · simp only [hs, if_neg]
      cases hd : searchDollar s with
      | some g => simp
      | none =>
        have := searchStarting_none_of_searchDollar_none s hd
        simp [this]

/-- C4.  models.Bus.validate_price returns exactly the digit characters of
the portion of the raw price before the first `.`, with all non-digit
characters removed, and null when no digits remain; in particular
`$12,345.67` maps to `12345` and `$999` maps to `999`. -/
theorem c4_price_normalizer :
    (∀ v : Text, validate_price (some v) = price_digits_spec v) ∧
    validate_price (some (("$12,345.67").toList)) = some (("12345").toList) ∧
    validate_price (some (("$999").toList)) = some (("999").toList) := by
  refine ⟨?_, by decide, by decide⟩
  intro v
  simp only [validate_price, price_digits_spec, splitBeforeSub_dot]

lemma fymm_fst_mileage (t : Text) (it : Item) :
    ((find_year_make_model t it).1).mileage = it.mileage := by
  unfold find_year_make_model
  split
  · rfl
  · dsimp only
    split
    · split <;> rfl
    · rfl

lemma gross_fst_mileage (t : Text) (it : Item) :
    ((extract_gross_weight t it).1).mileage = it.mileage := by
  unfold extract_gross_weight
  split <;> rfl

lemma eet_mileage (t : Text) (it : Item) (p : Item × Bool)
    (h : extract_engine_transmission t it = some p) :
    p.1.mileage = it.mileage := by
  unfold extract_engine_transmission at h
  split at h
  · exact absurd h (by simp)
  · cases h
    rfl
  · split at h
    · cases h
      rfl
    · cases h
      rfl

lemma processRow_mileage_stable (st : Item × List Text) (t : Text)
    (htr : truthyT st.1.mileage = true) (st2 : Item × List Text)
    (h : processRow st t = some st2) : st2.1.mileage = st.1.mileage := by
  unfold processRow at h
  by_cases ht : t = []
  · rw [if_pos ht] at h
    cases h
    rfl
  · rw [if_neg ht] at h
    simp only [] at h
    by_cases hf : (find_year_make_model t st.1).2 = true
    · rw [if_pos hf] at h
      cases h
      exact fymm_fst_mileage t st.1
    · rw [if_neg hf] at h
      by_cases hpk : hasSubLower passKeyL t = true
      · rw [if_pos hpk] at h
        cases h
        rfl
      · rw [if_neg hpk] at h
        by_cases hmk : hasSubLower milesKeyL t = true
        · rw [if_pos hmk, if_pos htr] at h
          cases h
          rfl
        · rw [if_neg hmk] at h
          cases heet : extract_engine_transmission t st.1 with
          | none =>
            rw [heet] at h
            cases h
          | some p =>
            rw [heet] at h
            simp only [] at h
            by_cases hb : p.2 = true
            · rw [if_pos hb] at h
              cases h
              exact eet_mileage t st.1 p heet
            · rw [if_neg hb] at h
              by_cases hg : (extract_gross_weight t p.1).2 = true
              · rw [if_pos hg] at h
                cases h
                rw [gross_fst_mileage]
                exact eet_mileage t st.1 p heet
              · rw [if_neg hg] at h
                by_cases hw : hasSubLower wchKeyL t = true
                · rw [if_pos hw] at h
                  cases h
                  exact eet_mileage t st.1 p heet
                · rw [if_neg hw] at h
                  by_cases hl : hasSubLower lugKeyL t = true
                  · rw [if_pos hl] at h
                    cases h
                    exact eet_mileage t st.1 p heet
                  · rw [if_neg hl] at h
                    cases h
                    exact eet_mileage t st.1 p heet

lemma processRows_mileage_stable :
    ∀ (ts : List Text) (st st2 : Item × List Text),
      truthyT st.1.mileage = true → processRows st ts = some st2 →
      st2.1.mileage = st.1.mileage := by
  intro ts
  induction ts with
  | nil =>
    intro st st2 htr h
    cases h
    rfl
  | cons t rest ih =>
    intro st st2 htr h
    unfold processRows at h
    cases hpr : processRow st t with
    | none => rw [hpr] at h; cases h
    | some stm =>
      rw [hpr] at h
      have hm := processRow_mileage_stable st t htr stm hpr
      have htr2 : truthyT stm.1.mileage = true := by rw [hm]; exact htr
      rw [ih stm st2 htr2 h, hm]

lemma processRows_append (xs ys : List Text) :
    ∀ st, processRows st (xs ++ ys) =
      (processRows st xs).bind (fun st2 => processRows st2 ys) := by
  induction xs with
  | nil => intro st; rfl
  | cons t ts ih =>
    intro st
    simp only [List.cons_append, processRows]
    cases hp : processRow st t with
    | none => rfl
    | some st2 => exact ih st2

/-- C1 counterexample.  In the section-8 end-to-end scenario the assembled
record's transmission is `Allison`, not `Allison automatic` as the claim
states: on the row `Allison automatic`, group 1 of the prioritized pattern
matches only the `Allison` alternative.  All other claimed fields are as
stated (see the amended theorem), so the concrete transmission value
refutes the claim's conjunction. -/
theorem c1_transmission_counterexample :
    demoRecord.map (fun i => i.transmission) = some (some (("Allison").toList)) ∧
    demoRecord.map (fun i => i.transmission) ≠
      some (some (("Allison automatic").toList)) :=
  ⟨by decide, by decide⟩

/-- C1 amended.  For the section-8 scenario — the listing row containing
`Sold` and the seven detail-table rows — the assembled record has exactly
year 1998, make `Blue Bird`, model `TC2000`, sold 1, passengers
`77 psssanger`, mileage `45,000 ` (trailing space kept), transmission
`Allison` (the regex group captures only the matched alternative, not the
whole row), gvwr `10000`, wheelchair `wheelchair lift available`, and
airconditioning `REAR`. -/
theorem c1_end_to_end_amended :
    demoRecord.map (fun i => i.year) = some (some (("1998").toList)) ∧
    demoRecord.map (fun i => i.make) = some (some (("Blue Bird").toList)) ∧
    demoRecord.map (fun i => i.model) = some (some (("TC2000").toList)) ∧
    demoRecord.map (fun i => i.sold) = some 1 ∧
    demoRecord.map (fun i => i.passengers) = some (some (("77 psssanger").toList)) ∧
    demoRecord.map (fun i => i.mileage) = some (some (("45,000 ").toList)) ∧
    demoRecord.map (fun i => i.transmission) = some (some (("Allison").toList)) ∧
    demoRecord.map (fun i => i.gvwr) = some (some (("10000").toList)) ∧
    demoRecord.map (fun i => i.wheelchair) =
      some (some (("wheelchair lift available").toList)) ∧
    demoRecord.map (fun i => i.airconditioning) = some (some ("REAR")) :=
  ⟨by decide, by decide, by decide, by decide, by decide, by decide, by decide,
   by decide, by decide, by decide⟩

/-- C2 counterexample.  The row `1998 Ford 45000 miles` contains a
4-digit year followed by whitespace and the substring `miles`, yet the
classifier chain does not classify it as Year/Make/Model (the comma split
yields a single segment, so find_year_make_model returns False) and the
mileage branch stores `1998 Ford 45000 ` — the mileage field IS set from
this row, refuting the claim. -/
theorem c2_year_miles_counterexample :
    find_year_with_space c2Row ≠ none ∧
    hasSubLower milesKeyL c2Row = true ∧
    processRow (emptyItem, []) c2Row =
      some ({emptyItem with mileage := some (("1998 Ford 45000 ").toList)}, []) ∧
    ({emptyItem with mileage := some (("1998 Ford 45000 ").toList)} : Item).year
      = none :=
  ⟨by decide, by decide, by decide, rfl⟩

/-- C2 amended.  A detail-table row whose text contains a 4-digit year
(19xx or 20xx) followed by whitespace and the substring `miles`
(case-insensitively) is classified as Year/Make/Model — and the mileage
field is never set from it — provided the text additionally splits on
commas into at least two segments and the first segment contains a
whitespace token (otherwise find_year_make_model reports no match and the
row falls through to the mileage classifier). -/
theorem c2_year_make_model_amended (it : Item) (ods : List Text) (t : Text)
    (_hm : hasSubLower milesKeyL t = true)
    (hy : find_year_with_space t ≠ none)
    (hp : 2 ≤ ((pySplitChar ',' t).map pyStrip).length)
    (hw : pyWords (((pySplitChar ',' t).map pyStrip).headD []) ≠ []) :
    (find_year_make_model t it).2 = true ∧
    processRow (it, ods) t = some ((find_year_make_model t it).1, ods) ∧
    ((find_year_make_model t it).1).mileage = it.mileage := by
  have htne : t ≠ [] := by
    intro he
    rw [he] at hy
    exact hy rfl
  have hf2 : (find_year_make_model t it).2 = true := by
    cases hfy : find_year_with_space t with
    | none => exact absurd hfy hy
    | some m =>
      unfold find_year_make_model
      rw [hfy]
      simp only []
      rw [if_pos hp]
      cases hpw : pyWords (((pySplitChar ',' t).map pyStrip).headD []) with
      | nil => exact absurd hpw hw
      | cons y rest => rfl
  refine ⟨hf2, ?_, fymm_fst_mileage t it⟩
  unfold processRow
  rw [if_neg htne]
  simp only []
  rw [if_pos hf2]

/-- C3 counterexample.  For a record whose raw year `1875` parses to an
integer below 1900, the pipeline produces no record at all:
`Bus(**item)` runs outside process_item's try block and validate_year
raises, so pydantic aborts the whole model and nothing is persisted —
refuting the claim that the record survives with only the year nulled. -/
theorem c3_year_abort_counterexample :
    pyInt (("1875").toList) = some 1875 ∧ (1875 : Int) < 1900 ∧
    mysqlProcessItem c3Raw = none :=
  ⟨by decide, by decide, by decide⟩

/-- C3 amended.  For every record whose raw year string is non-numeric or
parses to an integer outside [1900, 2100], validation fails for the whole
record: the Bus model is never constructed, so the record is not produced
and not persisted — the year failure aborts the entire record rather than
nulling the single field. -/
theorem c3_year_failure_amended (r : RawBus) (y : Text)
    (hy : r.year = some y)
    (hbad : pyInt y = none ∨ ∃ n, pyInt y = some n ∧ (n < 1900 ∨ 2100 < n)) :
    mysqlProcessItem r = none := by
  have hvy : validate_year y = none := by
    unfold validate_year
    rcases hbad with h | ⟨n, hn, hr⟩
    · rw [h]
    · rw [hn]
      simp only []
      rw [if_neg]
      simp only [Bool.and_eq_true, decide_eq_true_eq, not_and, not_le]
      rcases hr with h1 | h1
      · intro h2
        omega
      · intro h2
        omega
  unfold mysqlProcessItem busValidate
  rw [hy]
  simp only []
  rw [hvy]

/-- Witness for the amended claim C3 at the concrete record c3Raw. -/
theorem c3_amended_witness :
    c3Raw.year = some (("1875").toList) ∧ mysqlProcessItem c3Raw = none :=
  ⟨rfl, c3_year_failure_amended c3Raw (("1875").toList) rfl
    (Or.inr ⟨1875, by decide, Or.inl (by decide)⟩)⟩

/-- Witness for the amended claim C2 at the concrete row c2wRow. -/
theorem c2_amended_witness :
    hasSubLower milesKeyL c2wRow = true ∧
    find_year_with_space c2wRow ≠ none ∧
    2 ≤ ((pySplitChar ',' c2wRow).map pyStrip).length ∧
    pyWords (((pySplitChar ',' c2wRow).map pyStrip).headD []) ≠ [] ∧
    ((find_year_make_model c2wRow emptyItem).2 = true ∧
     processRow (emptyItem, []) c2wRow =
       some ((find_year_make_model c2wRow emptyItem).1, []) ∧
     ((find_year_make_model c2wRow emptyItem).1).mileage = emptyItem.mileage) :=
  ⟨by decide, by decide, by decide, by decide,
   c2_year_make_model_amended emptyItem [] c2wRow (by decide) (by decide)
     (by decide) (by decide)⟩

/-- C5 counterexample.  The row `45,000 Miles` is matched by the
case-insensitive mileage test, but the stored value is the entire row text,
not the text preceding the keyword (`45,000 `): the store uses the
case-sensitive `text.split("miles")[0]`, which finds no lowercase `miles`
and therefore returns the whole text — which still contains the keyword. -/
theorem c5_mileage_case_counterexample :
    hasSubLower milesKeyL c5Row = true ∧
    processRow (emptyItem, []) c5Row =
      some ({emptyItem with mileage := some c5Row}, []) ∧
    c5Row ≠ ("45,000 ").toList :=
  ⟨by decide, by decide, by decide⟩

/-- C5 amended.  For the first row whose text contains `miles`
case-insensitively and that no earlier classifier consumed (the item's
mileage is still falsy, Year/Make/Model fails on the row, the passengers
keyword is absent), the stored mileage value is the text of that row
preceding the first case-sensitive (lowercase) occurrence of `miles` — the
entire row text when there is none — and, provided that value is non-empty,
it is the final mileage of the assembled record. -/
theorem c5_mileage_amended (it0 it1 : Item) (ods0 ods1 : List Text)
    (pre post : List Text) (r : Text) (res : Item × List Text)
    (h1 : processRows (it0, ods0) pre = some (it1, ods1))
    (h2 : truthyT it1.mileage = false)
    (h3 : (find_year_make_model r it1).2 = false)
    (h4 : hasSubLower passKeyL r = false)
    (h5 : hasSubLower milesKeyL r = true)
    (h6 : splitBeforeSub milesKeyL r ≠ [])
    (h7 : processRows (it0, ods0) (pre ++ r :: post) = some res) :
    res.1.mileage = some (splitBeforeSub milesKeyL r) := by
  rw [processRows_append pre (r :: post) (it0, ods0), h1] at h7
  simp only [Option.bind] at h7
  have hrne : r ≠ [] := by
    intro he
    rw [he] at h5
    exact absurd h5 (by decide)
  have hpr : processRow (it1, ods1) r =
      some ({it1 with mileage := some (splitBeforeSub milesKeyL r)}, ods1) := by
    unfold processRow
    rw [if_neg hrne]
    simp only []
    have h3x : ¬((find_year_make_model r it1).2 = true) := by
      rw [h3]
      exact Bool.false_ne_true
    rw [if_neg h3x]
    have h4x : ¬(hasSubLower passKeyL r = true) := by
      rw [h4]
      exact Bool.false_ne_true
    rw [if_neg h4x]
    rw [if_pos h5]
    have h2x : ¬(truthyT it1.mileage = true) := by
      rw [h2]
      exact Bool.false_ne_true
    rw [if_neg h2x]
  unfold processRows at h7
  rw [hpr] at h7
  simp only [] at h7
  have htr : truthyT ({it1 with
      mileage := some (splitBeforeSub milesKeyL r)} : Item).mileage = true := by
    simpa [truthyT, bne_iff_ne] using h6
  exact processRows_mileage_stable post
    ({it1 with mileage := some (splitBeforeSub milesKeyL r)}, ods1) res htr h7

/-- Witness for the amended claim C5: empty prefix, the row
`45,000 miles`, one further miles row that leaves the value intact. -/
theorem c5_amended_witness :
    processRows (emptyItem, []) ([] ++ c5wRow :: [c5wPost]) = some c5wRes ∧
    c5wRes.1.mileage = some (splitBeforeSub milesKeyL c5wRow) :=
  ⟨by decide,
   c5_mileage_amended emptyItem emptyItem [] [] [] [c5wPost] c5wRow c5wRes
     (by decide) (by decide) (by decide) (by decide) (by decide) (by decide)
     (by decide)⟩

/-- C6 counterexample.  Two rows both containing `miles`: the first,
`miles: unknown`, assigns the empty string to mileage; because the empty
string is falsy, the already-set guard does not fire on the second row,
`45,000 miles`, which re-assigns mileage to `45,000 ` — the field is
assigned twice and the second miles row changed it, refuting the claim. -/
theorem c6_mileage_twice_counterexample :
    hasSubLower milesKeyL c6r1 = true ∧ hasSubLower milesKeyL c6r2 = true ∧
    processRows (emptyItem, []) [c6r1] =
      some ({emptyItem with mileage := some []}, []) ∧
    processRows (emptyItem, []) [c6r1, c6r2] =
      some ({emptyItem with mileage := some (("45,000 ").toList)}, []) ∧
    (some ([] : Text)) ≠ some (("45,000 ").toList) :=
  ⟨by decide, by decide, by decide, by decide, by decide⟩

/-- C6 amended.  Once the mileage field holds a truthy (non-empty) value,
no later row of the detail page changes it — in particular every further
`miles`-containing row is skipped by the already-set guard.  (A row can,
however, assign the falsy empty string, which a later miles row may
overwrite, as the counterexample shows.) -/
theorem c6_mileage_once_amended (ts : List Text) (st res : Item × List Text)
    (h1 : truthyT st.1.mileage = true)
    (h2 : processRows st ts = some res) :
    res.1.mileage = st.1.mileage :=
  processRows_mileage_stable ts st res h1 h2

/-- Witness for the amended claim C6: a truthy mileage survives a further
miles row unchanged. -/
theorem c6_amended_witness :
    truthyT c6wSt.mileage = true ∧ c6wRes.1.mileage = c6wSt.mileage :=
  ⟨by decide,
   c6_mileage_once_amended [c6r2] (c6wSt, []) c6wRes (by decide) (by decide)⟩

lemma extractImagesAux_idx (ty : String) :
    ∀ (l : List ImgSrc) (k : Nat),
      (extractImagesAux ty k l).map ImageItem.image_index =
        (List.range l.length).map (fun i => groupIdx ty (k + i)) := by
  intro l
  induction l with
  | nil => intro k; rfl
  | cons img rest ih =>
    intro k
    rw [extractImagesAux, List.map_cons, List.length_cons,
        List.range_succ_eq_map, List.map_cons, List.map_map]
    simp only [List.cons.injEq]
    constructor
    · show _ = groupIdx ty (k + 0)
      rw [Nat.add_zero]
      rfl
    · rw [ih (k + 1)]
      apply List.map_congr_left
      intro i hi
      show groupIdx ty (k + 1 + i) = groupIdx ty (k + (i + 1))
      congr 1
      omega

/-- C7.  For every detail page with the main/floor-plan images and the
thumbnail images listed in page-source order, the emitted list carries
image_index values exactly 1..M for the main group and -1..-T for the
thumbnails, each in page order and independent of anything but the within-
group position (the two groups come from separate selector queries); in
particular 3 main images and 2 thumbnails yield [1, 2, 3] and [-1, -2]. -/
theorem c7_image_indices :
    (∀ (mains thumbs : List ImgSrc),
      ((extract_images mains ("main_images")) ++
          (extract_images thumbs ("thumbnails"))).map ImageItem.image_index =
        (List.range mains.length).map (fun (i : Nat) => ((i : Int) + 1)) ++
          (List.range thumbs.length).map (fun (i : Nat) => (-((i : Int) + 1)))) ∧
    ((extract_images demoMainImgs ("main_images")) ++
        (extract_images demoThumbImgs ("thumbnails"))).map ImageItem.image_index =
      [1, 2, 3, -1, -2] := by
  refine ⟨?_, by decide⟩
  intro mains thumbs
  rw [List.map_append, extract_images, extract_images,
      extractImagesAux_idx, extractImagesAux_idx]
  congr 1
  · apply List.map_congr_left
    intro i hi
    show groupIdx ("main_images") (0 + i) = (i : Int) + 1
    unfold groupIdx
    rw [if_neg (by decide), if_pos rfl]
    omega
  · apply List.map_congr_left
    intro i hi
    show groupIdx ("thumbnails") (0 + i) = -((i : Int) + 1)
    unfold groupIdx
    rw [if_pos rfl]
    omega

/-- C8.  The air-conditioning classification scans the table rows in order
and stops at the first row matching `/A\/C|AC|Air conditioning|BTU/i`,
deciding the category from that row's text alone (the result is the
category of the first matching row, whatever follows); a page with a
REAR-indicating matching row before a DASH-indicating one yields REAR, and
a page with no matching row yields None rather than a category value. -/
theorem c8_air_conditioning_first_match :
    (∀ rows : List Text,
        extract_air_conditioning rows = (rows.find? acAlt).map acCategory) ∧
    extract_air_conditioning [acRearRow, acDashRow] = some ("REAR") ∧
    acAlt acRearRow = true ∧ acAlt acDashRow = true ∧ acCategory acDashRow = ("DASH") ∧
    acAlt acPlainRow = false ∧ extract_air_conditioning [acPlainRow] = none := by
  refine ⟨?_, by decide, by decide, by decide, by decide, by decide, by decide⟩
  intro rows
  induction rows with
  | nil => rfl
  | cons t ts ih =>
    by_cases h : acAlt t = true
    · rw [extract_air_conditioning, if_pos h, List.find?_cons_of_pos _ h]
      rfl
    · rw [extract_air_conditioning, if_neg h, List.find?_cons_of_neg _ h, ih]

/-- C9.  The yielded item of parse_bus_details never depends on the
response status: extraction runs on whatever content was returned and the
item (when the row loop does not raise) is yielded no matter the status —
a status above 400 only makes the error log fire.  The first conjunct
states the emitted record equals the one for the same content with status
200; the second states the log flag is exactly `status > 400 and an item
was emitted`. -/
theorem c9_status_independent :
    ∀ (resp : DetailResponse) (it0 : Item),
      (parse_bus_details resp it0).1 =
        (parse_bus_details {resp with status := 200} it0).1 ∧
      (parse_bus_details resp it0).2 =
        (decide (400 < resp.status) && ((parse_bus_details resp it0).1).isSome) := by
  intro resp it0
  obtain ⟨st, mi, ti, pa, pr, ro⟩ := resp
  unfold parse_bus_details
  dsimp only
  generalize processRows _ ro = e
  cases e with
  | none => exact ⟨rfl, by simp⟩
  | some p =>
    obtain ⟨it5, ods⟩ := p
    exact ⟨rfl, by simp⟩
